import Mathlib

/-!
Shallow embedding of the DFC (Data Field Collector) application core:
the IndexedDB-backed record store (`initDB`/`saveToIndexedDB`/
`getAllFromIndexedDB`/`deleteFromIndexedDB`), the storage estimate
(`getStorageEstimate`, `updateStorageInfo`), the photo pipeline
(`validatePhotoFiles`, `convertPhotoToBase64`), the export formatter
(`createShareText`) and the HTML helpers (`escapeHtml`, list-view card
builders), together with proofs settling the specification claims.

Machine model conventions:
- `entry.timestamp` is stored in the source as an ISO-8601 string and
  compared via `new Date(...)`; ISO-8601 strings produced by
  `toISOString` compare exactly as their epoch values, so timestamps are
  embedded as epoch milliseconds (`Nat`).
- The IndexedDB object store (keyPath `id`) is embedded as a list of
  entries in ascending key order, which is the enumeration order of
  `IDBObjectStore.getAll`.
- JavaScript numbers occurring in the quota/percentage arithmetic are
  embedded as exact integer fractions; the inputs involved (byte
  counts) are integers far below 2^53, where JS arithmetic on the
  expressions in question is exact up to the final rounding steps,
  which are modelled explicitly by integer arithmetic.
-/

namespace DFC

/-- Exact value of a JavaScript number as the fraction `num / den`
(`den` positive).  The byte counts and coordinates handled by the
application stay far below 2^53, where the JS double arithmetic that the
source performs on them is exact up to the explicit rounding steps
(`toFixed`, `Math.round`), which are modelled below by integer
arithmetic.  (`Rat` is avoided because its arithmetic is irreducible to
the kernel.) -/
structure JsNumber where
  num : Int
  den : Int
deriving DecidableEq

/-- A captured GPS location, from `handleLocationSuccess`:
`{ lat, lng, accuracy }`. -/
structure Location where
  lat : JsNumber
  lng : JsNumber
  accuracy : JsNumber
deriving DecidableEq

/-- A processed photo, as built by `convertPhotoToBase64`:
`{ data, name, type, size, timestamp }`.  The `data` field holds the
result of `FileReader.readAsDataURL`; since the data-URL encoding is a
fixed injective function of the MIME type and the bytes read, it is
embedded as the byte buffer itself. -/
structure Photo where
  data : List Nat
  name : String
  type : String
  size : Nat
  timestamp : Nat
deriving DecidableEq

/-- A stored entry, as built by `createEntryObject`:
`{ id, category, status, description, location, photos, timestamp }`. -/
structure Entry where
  id : Nat
  category : String
  status : String
  description : String
  location : Option Location
  photos : List Photo
  timestamp : Nat
deriving DecidableEq

/-- The IndexedDB object store `entries` (keyPath `id`): entries held in
ascending key order, the order in which `IDBObjectStore.getAll`
enumerates records. -/
abbrev Store := List Entry

/-- Outcome of an IndexedDB put request: `onsuccess` delivers
`request.result` (the key), `onerror` delivers an error. -/
inductive PutResult where
  | success (key : Nat)
  | failure (msg : String)
deriving DecidableEq

/-- Outcome of an IndexedDB delete request. -/
inductive DeleteResult where
  | success
  | failure (msg : String)
deriving DecidableEq

/-- Semantics of `IDBObjectStore.put` with an in-line key: store the
record, replacing any previously stored record with the same key
(upsert); the store stays in ascending key order. -/
def idbPut (e : Entry) : Store → Store
  | [] => [e]
  | x :: xs =>
    if e.id < x.id then e :: x :: xs
    else if e.id = x.id then e :: xs
    else x :: idbPut e xs

/-- Key lookup in the object store (semantics of `IDBObjectStore.get`). -/
def idbGet (id : Nat) : Store → Option Entry
  | [] => none
  | x :: xs => if x.id = id then some x else idbGet id xs

/-- Function `saveToIndexedDB(entry)`: opens a readwrite transaction and issues
`store.put(entry)`; resolves with the key on success.  `put` never
fails for an existing key — it overwrites.  (Medium-level failures
surface through `onerror` and are environment faults outside this
embedding.) -/
def saveToIndexedDB (entry : Entry) (s : Store) : PutResult × Store :=
  (PutResult.success entry.id, idbPut entry s)

/-- Semantics of `IDBObjectStore.delete`: removes the records matching
the key; succeeds whether or not the key was present. -/
def idbDelete (id : Nat) : Store → Store
  | [] => []
  | x :: xs => if x.id = id then idbDelete id xs else x :: idbDelete id xs

/-- Function `deleteFromIndexedDB(id)`: issues `store.delete(id)` and resolves on
`onsuccess`, which fires for absent keys as well. -/
def deleteFromIndexedDB (id : Nat) (s : Store) : DeleteResult × Store :=
  (DeleteResult.success, idbDelete id s)

/-- The comparator `(a, b) => new Date(b.timestamp) - new Date(a.timestamp)`
of `getAllFromIndexedDB`, as the relation "a may come before b":
comparator value `≤ 0`, i.e. `b.timestamp ≤ a.timestamp`. -/
def tsComparatorLe (a b : Entry) : Prop := b.timestamp ≤ a.timestamp

instance : DecidableRel tsComparatorLe := fun a b => Nat.decLe b.timestamp a.timestamp

/-- Function `getAllFromIndexedDB()`: `store.getAll()` yields the records in
ascending key order; the result is then sorted in place with the
timestamp comparator.  `Array.prototype.sort` is stable, so it is
embedded as a stable (insertion) sort with respect to `tsComparatorLe`. -/
def getAllFromIndexedDB (s : Store) : List Entry :=
  List.insertionSort tsComparatorLe s

/-- A raw file as handed to `handlePhotoCapture`: the `File` metadata
(`name`, `type`, `size`) together with the content bytes that
`FileReader` would read from it. -/
structure InputFile where
  name : String
  type : String
  size : Nat
  bytes : List Nat
deriving DecidableEq

/-- Constant `CONFIG.SUPPORTED_IMAGE_TYPES`. -/
def SUPPORTED_IMAGE_TYPES : List String := ["image/jpeg", "image/png", "image/webp"]

/-- Constant `CONFIG.MAX_PHOTO_SIZE`: 10MB per photo. -/
def MAX_PHOTO_SIZE : Nat := 10 * 1024 * 1024

/-- Why `validatePhotoFiles` drops a file: the first warn branch rejects
the declared MIME type, the second the size. -/
inductive RejectionReason where
  | UnsupportedType
  | TooLarge
deriving DecidableEq

/-- The per-file check of the filter callback of `validatePhotoFiles`, in
source order: first `CONFIG.SUPPORTED_IMAGE_TYPES.includes(file.type)`,
then `file.size > CONFIG.MAX_PHOTO_SIZE`; `none` means the file is kept. -/
def fileRejection (file : InputFile) : Option RejectionReason :=
  if file.type ∉ SUPPORTED_IMAGE_TYPES then some RejectionReason.UnsupportedType
  else if file.size > MAX_PHOTO_SIZE then some RejectionReason.TooLarge
  else none

/-- Function `validatePhotoFiles(files)`: `files.filter(...)` with the per-file
check; returns the valid subset, one verdict per file. -/
def validatePhotoFiles (files : List InputFile) : List InputFile :=
  files.filter fun file => (fileRejection file).isNone

/-- Function `convertPhotoToBase64(file)`: reads the file with
`FileReader.readAsDataURL` and resolves
`{ data: e.target.result, name: file.name, type: file.type,
size: file.size, timestamp: Date.now() }`.  `Date.now()` is the `now`
parameter; the data URL is embedded as the bytes read (see `Photo`). -/
def convertPhotoToBase64 (now : Nat) (file : InputFile) : Photo :=
  { data := file.bytes
  , name := file.name
  , type := file.type
  , size := file.size
  , timestamp := now }

/-- Model of `Math.round(num / den)` for `den > 0`, computed exactly: nearest
integer, ties toward positive infinity. -/
def jsMathRound (num den : Int) : Int :=
  Int.fdiv (2 * num + den) (2 * den)

/-- Left-pad a digit string with zeros to the given width. -/
def padZeros (width : Nat) (s : String) : String :=
  String.mk (List.replicate (width - s.length) '0') ++ s

/-- Model of `(num / den).toFixed(digits)` for `den > 0`, computed exactly:
rounds to `digits` decimal places (ties toward positive infinity, as
`toFixed` picks the larger candidate) and renders with exactly `digits`
fraction digits. -/
def toFixed (digits : Nat) (num den : Int) : String :=
  let scaled : Int := jsMathRound (num * (10 : Int) ^ digits) den
  let sign := if scaled < 0 then "-" else ""
  let n := scaled.natAbs
  let base := 10 ^ digits
  if digits = 0 then sign ++ toString (n / base)
  else sign ++ toString (n / base) ++ "." ++ padZeros digits (toString (n % base))

/-- JS string conversion of a number holding `tenths / 10`, a value
with at most one decimal digit (the shape produced by
`Number(x.toFixed(1))`): integral values print without a decimal
point. -/
def oneDecimalToString (tenths : Int) : String :=
  let sign := if tenths < 0 then "-" else ""
  let n := tenths.natAbs
  if n % 10 = 0 then sign ++ toString (n / 10)
  else sign ++ toString (n / 10) ++ "." ++ toString (n % 10)

/-- JS string conversion of a coordinate in the Maps URL interpolation
of `createShareText`.  Integral values print as integers; the rendering
of non-integral values is modelled with six fixed decimals (no claim
depends on this rendering). -/
def jsFloatToString (q : JsNumber) : String :=
  if q.den = 1 then toString q.num else toFixed 6 q.num q.den

/-- Function `formatBytes(bytes)`: "0 KB" for zero, else
`(bytes / 1024).toFixed(1)` followed by " KB". -/
def formatBytes (bytes : Nat) : String :=
  if bytes = 0 then "0 KB" else toFixed 1 (bytes : Int) 1024 ++ " KB"

/-- The result of `navigator.storage.estimate()`:
`{ usage, quota }` in bytes. -/
structure StorageEstimate where
  usage : Nat
  quota : Nat
deriving DecidableEq

/-- The host `navigator.storage` capability surface probed by
`getStorageEstimate`: whether the `in`-checks on `navigator.storage` and its
`estimate` member hold, and the estimate the platform
would report when both do. -/
structure NavigatorStorage where
  hasStorage : Bool
  hasEstimate : Bool
  estimateResult : StorageEstimate
deriving DecidableEq

/-- Function `getStorageEstimate()`: returns `await navigator.storage.estimate()`
when the capability is exposed and `null` otherwise; it is total (never
throws past its boundary). -/
def getStorageEstimate (nav : NavigatorStorage) : Option StorageEstimate :=
  if nav.hasStorage && nav.hasEstimate then some nav.estimateResult else none

/-- What `updateStorageInfo` writes to the DOM, plus the numeric values
it derives on the way.  `percentageTenths` holds ten times the JS
variable `percentage = Number(((usage / quota) * 100).toFixed(1))`,
which is exact because `toFixed(1)` leaves one decimal digit;
`widthTenths` likewise holds ten times `Math.min(percentage, 100)`. -/
structure StorageInfoView where
  storageText : String
  progressWidth : String
  percentageTenths : Int
  widthTenths : Int
  red : Int
  green : Int
  infoBackgroundColor : String
  progressBackgroundColor : String
deriving DecidableEq

/-- Function `updateStorageInfo()`: on a `null` estimate it only logs and
returns; otherwise it renders `Using {used} MB of {quota} MB ({p}%)`,
sets the progress-bar width to `Math.min(percentage, 100)%`, and colors
from `red = Math.round(255 * percentage / 100)` and
`green = Math.round(255 * (100 - percentage) / 100)`. -/
def updateStorageInfo (estimate : Option StorageEstimate) : Option StorageInfoView :=
  match estimate with
  | none => none
  | some est =>
    let used := toFixed 2 (est.usage : Int) (1024 * 1024)
    let quota := toFixed 2 (est.quota : Int) (1024 * 1024)
    let pT : Int := jsMathRound ((est.usage : Int) * 1000) (est.quota : Int)
    let wT : Int := min pT 1000
    let red := jsMathRound (255 * pT) 1000
    let green := jsMathRound (255 * (1000 - pT)) 1000
    some
      { storageText :=
          "Using " ++ used ++ " MB of " ++ quota ++ " MB (" ++ oneDecimalToString pT ++ "%)"
      , progressWidth := oneDecimalToString wT ++ "%"
      , percentageTenths := pT
      , widthTenths := wT
      , red := red
      , green := green
      , infoBackgroundColor :=
          "rgba(" ++ toString red ++ ", " ++ toString green ++ ", 0, 0.3)"
      , progressBackgroundColor :=
          "rgba(" ++ toString red ++ ", " ++ toString green ++ ", 0, 0.6)" }

/-- One character of the WHATWG text-node escape that
`div.textContent = text; div.innerHTML` performs in `escapeHtml`. -/
def escapeHtmlChar (c : Char) : String :=
  if c = '&' then "&amp;"
  else if c = '<' then "&lt;"
  else if c = '>' then "&gt;"
  else if c = Char.ofNat 160 then "&nbsp;"
  else String.singleton c

/-- Character-list worker for `escapeHtml`. -/
def escapeHtmlList : List Char → String
  | [] => ""
  | c :: cs => escapeHtmlChar c ++ escapeHtmlList cs

/-- Function `escapeHtml(text)`: assigns the text to the `textContent` of a
detached `div` and reads back `innerHTML`, i.e. the HTML fragment serialization of
a text node, which escapes `&`, `<`, `>` and non-breaking spaces. -/
def escapeHtml (text : String) : String := escapeHtmlList text.data

/-- Occurrences of a character in a string. -/
def countChar (c : Char) (s : String) : Nat := s.data.count c

/-- Function `createEntryHeader(entry)`: the badges/actions block of an entry
card; category and status pass through `escapeHtml`, the id is
interpolated into the `onclick` attributes. -/
def createEntryHeader (entry : Entry) : String :=
  "\n        <div class=\"entry-header\">\n            <div class=\"entry-badges\">\n                <span class=\"badge badge-blue\">" ++
    escapeHtml entry.category ++
    "</span>\n                <span class=\"badge badge-green\">" ++
    escapeHtml entry.status ++
    "</span>\n            </div>\n            <div class=\"entry-actions\">\n                <button class=\"btn btn-share\" onclick=\"shareEntry(" ++
    toString entry.id ++
    ")\" title=\"Share entry\" aria-label=\"Share entry\">\n                    <span class=\"icon\">🔗</span>\n                </button>\n                <button class=\"btn btn-delete\" onclick=\"deleteEntry(" ++
    toString entry.id ++
    ")\" title=\"Delete entry\" aria-label=\"Delete entry\">\n                    <span class=\"icon\">🗑️</span>\n                </button>\n            </div>\n        </div>\n    "

/-- Function `createEntryDescription(description)`: the description block of an
entry card; the text passes through `escapeHtml`. -/
def createEntryDescription (description : String) : String :=
  "\n        <div class=\"entry-description\">" ++ escapeHtml description ++ "</div>\n    "

/-- Model of `new Date(t).toLocaleString()`: locale-dependent but, in a fixed
environment, a fixed deterministic function of the timestamp; modelled
as the decimal rendering of the epoch value. -/
def dateToLocaleString (t : Nat) : String := toString t

/-- Model of `String.prototype.trim` on a character list: strips leading and
trailing whitespace. -/
def jsTrimList (l : List Char) : List Char :=
  ((l.dropWhile Char.isWhitespace).reverse.dropWhile Char.isWhitespace).reverse

/-- Model of `String.prototype.trim`. -/
def jsTrim (s : String) : String := String.mk (jsTrimList s.data)

/-- Function `createShareText(entry)`: the fixed-section report template, with
`entry.category`, `entry.status` and `entry.description` interpolated
directly (the description falls back to the fixed
placeholder when empty), the location/photo summary lines, and a final
`.trim()`. -/
def locationText (location : Option Location) : String :=
  match location with
  | some loc =>
      "📍 Location: " ++ toFixed 6 loc.lat.num loc.lat.den ++ ", " ++
        toFixed 6 loc.lng.num loc.lng.den ++
        "\n🎯 Accuracy: " ++ toFixed 0 loc.accuracy.num loc.accuracy.den ++ "m" ++
        "\n🗺️ Google Maps: https://maps.google.com/?q=" ++ jsFloatToString loc.lat ++
        "," ++ jsFloatToString loc.lng
  | none => "📍 Location: Not captured"

def photoInfo (photos : List Photo) : String :=
  if photos.length > 0 then
    "📸 Photos: " ++ toString photos.length ++ " attached (" ++
      formatBytes (photos.foldl (fun sum p => sum + p.size) 0) ++ " total)"
  else "📸 Photos: None"

def createShareText (entry : Entry) : String :=
  jsTrim
    ("\n━━━━━━━━━━━━━━━━━━━━\n📋 DATA ENTRY REPORT\n━━━━━━━━━━━━━━━━━━━━\n\n📂 Category: " ++
      entry.category ++
      "\n✅ Status: " ++ entry.status ++
      "\n\n📝 Description:\n" ++
      (if entry.description = "" then "No description provided" else entry.description) ++
      "\n\n" ++ locationText entry.location ++
      "\n\n" ++ photoInfo entry.photos ++
      "\n\n⏰ Timestamp: " ++ dateToLocaleString entry.timestamp ++
      "\n\n━━━━━━━━━━━━━━━━━━━━\nGenerated by Data Collector App\n    ")

/-- The observable core of `window.shareEntry(id)`: look the entry up in
the in-memory `entries` cache (`entries.find(e => e.id === id)`), bail
out when absent, otherwise produce `createShareText(entry)`; the cache
is read, never written. -/
def shareEntryText (entries : List Entry) (id : Nat) : Option String × List Entry :=
  match entries.find? (fun e => e.id == id) with
  | none => (none, entries)
  | some entry => (some (createShareText entry), entries)

/-! Helper lemmas about the keyed store. -/

theorem idbGet_idbPut (e : Entry) (s : Store) (k : Nat) :
    idbGet k (idbPut e s) = if k = e.id then some e else idbGet k s := by
  induction s with
  | nil =>
    by_cases h : k = e.id
    · simp [idbPut, idbGet, h]
    · simp [idbPut, idbGet, h, Ne.symm h]
  | cons x xs ih =>
    by_cases h1 : e.id < x.id
    · rw [idbPut, if_pos h1]
      by_cases h : k = e.id
      · simp [idbGet, h]
      · simp [idbGet, h, Ne.symm h]
    · by_cases h2 : e.id = x.id
      · rw [idbPut, if_neg h1, if_pos h2]
        by_cases h : k = e.id
        · simp [idbGet, h]
        · simp [idbGet, h, Ne.symm h, h2 ▸ Ne.symm h]
      · rw [idbPut, if_neg h1, if_neg h2]
        by_cases hx : x.id = k
        · have : ¬ k = e.id := fun hk => h2 ((hk ▸ hx).symm)
          simp [idbGet, hx, this]
        · simp [idbGet, hx, ih]

theorem idbGet_idbDelete (id k : Nat) (s : Store) :
    idbGet k (idbDelete id s) = if k = id then none else idbGet k s := by
  induction s with
  | nil => simp [idbDelete, idbGet]
  | cons x xs ih =>
    simp only [idbDelete]
    by_cases hx : x.id = id
    · rw [if_pos hx, ih]
      by_cases hk : k = id
      · simp [hk]
      · have hxk : ¬ x.id = k := by rw [hx]; exact fun h => hk h.symm
        simp only [idbGet, if_neg hk, if_neg hxk]
    · rw [if_neg hx]
      simp only [idbGet]
      by_cases hxk : x.id = k
      · have hk : ¬ k = id := fun h => hx (hxk.trans h)
        rw [if_pos hxk, if_neg hk, if_pos hxk]
      · rw [if_neg hxk, ih]
        by_cases hk : k = id
        · simp [hk]
        · simp [hk, hxk]

/-! ### Claim C1 — ordering of `getAllFromIndexedDB` -/

/-- The ordering the listing actually satisfies: timestamps descending,
and records with equal timestamps in id-ascending order (the stable sort
preserves the key-ascending enumeration order of `getAll`). -/
def listingOrder (a b : Entry) : Prop :=
  b.timestamp < a.timestamp ∨ (a.timestamp = b.timestamp ∧ a.id < b.id)

theorem pairwise_orderedInsert_listing (x : Entry) (l : List Entry)
    (hl : l.Pairwise listingOrder) (hx : ∀ y ∈ l, x.id < y.id) :
    (List.orderedInsert tsComparatorLe x l).Pairwise listingOrder := by
  induction l with
  | nil => simp [List.orderedInsert]
  | cons y ys ih =>
    rw [List.orderedInsert]
    by_cases hxy : tsComparatorLe x y
    · rw [if_pos hxy]
      refine List.pairwise_cons.2 ⟨?_, hl⟩
      intro z hz
      rcases List.mem_cons.1 hz with rfl | hz'
      · rcases lt_or_eq_of_le hxy with hlt | heq
        · exact Or.inl hlt
        · exact Or.inr ⟨heq.symm, hx z (List.mem_cons_self z ys)⟩
      · have hyz := (List.pairwise_cons.1 hl).1 z hz'
        rcases hyz with hlt | ⟨heq, _⟩
        · exact Or.inl (lt_of_lt_of_le hlt hxy)
        · rcases lt_or_eq_of_le hxy with hlt2 | heq2
          · exact Or.inl (heq ▸ hlt2)
          · exact Or.inr ⟨heq2.symm.trans heq, hx z (List.mem_cons.2 (Or.inr hz'))⟩
    · rw [if_neg hxy]
      have hys := List.pairwise_cons.1 hl
      refine List.pairwise_cons.2
        ⟨?_, ih hys.2 fun z hz => hx z (List.mem_cons.2 (Or.inr hz))⟩
      intro z hz
      rcases (List.mem_orderedInsert tsComparatorLe).1 hz with rfl | hz'
      · exact Or.inl (lt_of_not_le hxy)
      · exact hys.1 z hz'

theorem pairwise_insertionSort_listing (s : Store)
    (h : s.Pairwise fun a b => a.id < b.id) :
    (List.insertionSort tsComparatorLe s).Pairwise listingOrder := by
  induction s with
  | nil => simp [List.insertionSort]
  | cons x xs ih =>
    rw [List.insertionSort]
    have hp := List.pairwise_cons.1 h
    exact pairwise_orderedInsert_listing x _ (ih hp.2)
      fun y hy => hp.1 y ((List.mem_insertionSort tsComparatorLe).1 hy)

def tieEarly : Entry :=
  { id := 1, category := "Inspection", status := "Open", description := ""
  , location := none, photos := [], timestamp := 100 }

def tieLate : Entry :=
  { id := 2, category := "Inspection", status := "Open", description := ""
  , location := none, photos := [], timestamp := 100 }

/-- C1 counterexample: a valid store state (keys ascending) with two
records sharing the same `createdAt`.  `getAllFromIndexedDB` returns the
equal-timestamp pair in id-ASCENDING order — the comparator only
compares timestamps and the stable sort keeps the key-ascending
enumeration order — refuting the claimed id-descending tie-break. -/
theorem getAllFromIndexedDB_tie_counterexample :
    tieEarly.id < tieLate.id ∧
    tieEarly.timestamp = tieLate.timestamp ∧
    getAllFromIndexedDB [tieEarly, tieLate] = [tieEarly, tieLate] ∧
    ¬ tieLate.id < tieEarly.id := by
  decide

/-- C1 (amended): for every store state (entries in ascending key
order, as `getAll` enumerates them), the listing returned by
`getAllFromIndexedDB` is sorted by `createdAt` descending, with any two
records of equal `createdAt` appearing in id-ASCENDING order. -/
theorem getAllFromIndexedDB_sorted (s : Store)
    (h : s.Pairwise fun a b => a.id < b.id) :
    (getAllFromIndexedDB s).Pairwise listingOrder :=
  pairwise_insertionSort_listing s h

/-- Witness for `getAllFromIndexedDB_sorted` on a concrete two-record
store. -/
theorem getAllFromIndexedDB_sorted_witness :
    (getAllFromIndexedDB [tieEarly, tieLate]).Pairwise listingOrder :=
  getAllFromIndexedDB_sorted [tieEarly, tieLate]
    (by simp [tieEarly, tieLate])

/-! ### Claim C2 — duplicate-id handling of `saveToIndexedDB` -/

def storedEntry : Entry :=
  { id := 5, category := "Inspection", status := "Open", description := "original"
  , location := none, photos := [], timestamp := 100 }

def duplicateEntry : Entry :=
  { id := 5, category := "Inspection", status := "Closed", description := "replacement"
  , location := none, photos := [], timestamp := 200 }

/-- C2 counterexample: the store already holds a record with key 5, yet
`saveToIndexedDB` of a second record with id 5 succeeds and silently
replaces the stored record — it does not fail with `DuplicateId` and the
previously stored record does not survive.  (`IDBObjectStore.put` is an
upsert; the source never uses `add`.) -/
theorem saveToIndexedDB_overwrites_counterexample :
    (saveToIndexedDB duplicateEntry [storedEntry]).1 = PutResult.success 5 ∧
    (saveToIndexedDB duplicateEntry [storedEntry]).2 = [duplicateEntry] ∧
    idbGet 5 (saveToIndexedDB duplicateEntry [storedEntry]).2 = some duplicateEntry ∧
    storedEntry ∉ (saveToIndexedDB duplicateEntry [storedEntry]).2 := by
  decide

/-- C2 (amended): for every record and store state, `saveToIndexedDB`
succeeds with the record key — also when the key already exists, in
which case the previously stored record is replaced (upsert); records
under every other key are untouched. -/
theorem saveToIndexedDB_upsert (entry : Entry) (s : Store) :
    (saveToIndexedDB entry s).1 = PutResult.success entry.id ∧
    ∀ k, idbGet k (saveToIndexedDB entry s).2 =
      if k = entry.id then some entry else idbGet k s :=
  ⟨rfl, fun k => idbGet_idbPut entry s k⟩

/-! ### Claim C3 — deletion of absent and present ids -/

/-- C3 counterexample: id 42 is absent from the store, yet
`deleteFromIndexedDB 42` reports success (the IndexedDB delete request
fires `onsuccess` for absent keys) instead of failing with `NotFound`. -/
theorem deleteFromIndexedDB_absent_counterexample :
    idbGet 42 [storedEntry] = none ∧
    (deleteFromIndexedDB 42 [storedEntry]).1 = DeleteResult.success ∧
    (deleteFromIndexedDB 42 [storedEntry]).2 = [storedEntry] := by
  decide

/-- C3 (amended): `deleteFromIndexedDB` always reports success: for an
absent id it is a success no-op rather than a `NotFound` failure, and
for a present id it removes the record — and with it its embedded
attachment bytes, since photos are stored inside the record — leaving
every other key untouched. -/
theorem deleteFromIndexedDB_total (id : Nat) (s : Store) :
    (deleteFromIndexedDB id s).1 = DeleteResult.success ∧
    ∀ k, idbGet k (deleteFromIndexedDB id s).2 = if k = id then none else idbGet k s :=
  ⟨rfl, fun k => idbGet_idbDelete id k s⟩

/-! ### Claim C4 — attachment size provenance in `convertPhotoToBase64` -/

def fileMismatched : InputFile :=
  { name := "p.png", type := "image/png", size := 999, bytes := [1, 2, 3] }

def fileAccurate : InputFile :=
  { name := "q.jpg", type := "image/jpeg", size := 3, bytes := [9, 9, 9] }

/-- C4 counterexample: a file accepted by the validation whose declared
size (999) differs from its actual buffer length (3); the attachment
built by `convertPhotoToBase64` carries `size = 999`, taken verbatim
from the caller-declared `file.size`, not recomputed from the buffer. -/
theorem convertPhotoToBase64_size_counterexample :
    fileRejection fileMismatched = none ∧
    fileMismatched.bytes.length = 3 ∧
    (convertPhotoToBase64 0 fileMismatched).size = 999 ∧
    (convertPhotoToBase64 0 fileMismatched).size ≠ fileMismatched.bytes.length := by
  decide

/-- C4 (amended): the size field of the attachment built by
`convertPhotoToBase64` is copied from the caller-declared `file.size`;
it equals the actual buffer length only when the declaration happens to
be accurate. -/
theorem convertPhotoToBase64_size_declared (now : Nat) (file : InputFile) :
    (convertPhotoToBase64 now file).size = file.size ∧
    (file.size = file.bytes.length →
      (convertPhotoToBase64 now file).size = file.bytes.length) :=
  ⟨rfl, fun h => h⟩

/-- Witness for `convertPhotoToBase64_size_declared` at a concrete
accurately-declared file. -/
theorem convertPhotoToBase64_size_declared_witness :
    (convertPhotoToBase64 7 fileAccurate).size = fileAccurate.bytes.length :=
  (convertPhotoToBase64_size_declared 7 fileAccurate).2 (by decide)

/-! ### Claim C6 — the validation allow-list and size limit -/

def fileBadType : InputFile :=
  { name := "doc.pdf", type := "application/pdf", size := 4, bytes := [1] }

def fileTooBig : InputFile :=
  { name := "big.png", type := "image/png", size := 10 * 1024 * 1024 + 1, bytes := [1] }

/-- C6: a file passes `validatePhotoFiles` exactly when its declared
MIME type is on the allow-list (jpeg, png, webp) and its size is at most
`10 * 1024 * 1024` bytes; a type outside the allow-list is rejected as
`UnsupportedType`, an allowed type above the limit as `TooLarge`.  The
filter judges every file by `fileRejection` of that file alone,
independently of the rest of the batch. -/
theorem validatePhotoFiles_allowlist_and_limit (files : List InputFile)
    (f : InputFile) (hf : f ∈ files) :
    SUPPORTED_IMAGE_TYPES = ["image/jpeg", "image/png", "image/webp"] ∧
    MAX_PHOTO_SIZE = 10 * 1024 * 1024 ∧
    (f ∈ validatePhotoFiles files ↔
      f.type ∈ SUPPORTED_IMAGE_TYPES ∧ f.size ≤ MAX_PHOTO_SIZE) ∧
    (f.type ∉ SUPPORTED_IMAGE_TYPES →
      fileRejection f = some RejectionReason.UnsupportedType) ∧
    (f.type ∈ SUPPORTED_IMAGE_TYPES → MAX_PHOTO_SIZE < f.size →
      fileRejection f = some RejectionReason.TooLarge) := by
  refine ⟨rfl, rfl, ?_, ?_, ?_⟩
  · rw [validatePhotoFiles, List.mem_filter]
    constructor
    · rintro ⟨-, hv⟩
      by_cases ht : f.type ∈ SUPPORTED_IMAGE_TYPES
      · by_cases hs : MAX_PHOTO_SIZE < f.size
        · simp [fileRejection, ht, hs] at hv
        · exact ⟨ht, le_of_not_lt hs⟩
      · simp [fileRejection, ht] at hv
    · rintro ⟨ht, hs⟩
      exact ⟨hf, by simp [fileRejection, ht, not_lt.2 hs]⟩
  · intro ht
    simp [fileRejection, ht]
  · intro ht hs
    simp [fileRejection, ht, hs]

/-- Witness for `validatePhotoFiles_allowlist_and_limit` on a concrete
three-file batch. -/
theorem validatePhotoFiles_allowlist_and_limit_witness :
    SUPPORTED_IMAGE_TYPES = ["image/jpeg", "image/png", "image/webp"] ∧
    MAX_PHOTO_SIZE = 10 * 1024 * 1024 ∧
    (fileAccurate ∈ validatePhotoFiles [fileBadType, fileAccurate, fileTooBig] ↔
      fileAccurate.type ∈ SUPPORTED_IMAGE_TYPES ∧ fileAccurate.size ≤ MAX_PHOTO_SIZE) ∧
    (fileAccurate.type ∉ SUPPORTED_IMAGE_TYPES →
      fileRejection fileAccurate = some RejectionReason.UnsupportedType) ∧
    (fileAccurate.type ∈ SUPPORTED_IMAGE_TYPES → MAX_PHOTO_SIZE < fileAccurate.size →
      fileRejection fileAccurate = some RejectionReason.TooLarge) :=
  validatePhotoFiles_allowlist_and_limit [fileBadType, fileAccurate, fileTooBig]
    fileAccurate (by decide)

/-! ### Claim C9 — storage estimate when introspection is unsupported -/

/-- C9: when the host exposes no capacity introspection (either
capability check fails), `getStorageEstimate` returns the distinct
`none` outcome — in particular not `some` of a zeroed estimate — and,
being a total function, it does not throw past its boundary. -/
theorem getStorageEstimate_unavailable (nav : NavigatorStorage)
    (h : ¬(nav.hasStorage = true ∧ nav.hasEstimate = true)) :
    getStorageEstimate nav = none ∧
    getStorageEstimate nav ≠ some { usage := 0, quota := 0 } := by
  have hb : (nav.hasStorage && nav.hasEstimate) = false := by
    rcases Bool.eq_false_or_eq_true nav.hasStorage with h1 | h1 <;>
      rcases Bool.eq_false_or_eq_true nav.hasEstimate with h2 | h2 <;>
        simp [h1, h2] at h ⊢
  rw [getStorageEstimate, if_neg (by simp [hb])]
  exact ⟨rfl, by simp⟩

/-- Witness for `getStorageEstimate_unavailable` on a host that lacks
the `estimate` capability while reporting a nonzero usage. -/
theorem getStorageEstimate_unavailable_witness :
    getStorageEstimate
        { hasStorage := true, hasEstimate := false
        , estimateResult := { usage := 42, quota := 7 } } = none ∧
    getStorageEstimate
        { hasStorage := true, hasEstimate := false
        , estimateResult := { usage := 42, quota := 7 } } ≠
      some { usage := 0, quota := 0 } :=
  getStorageEstimate_unavailable _ (by decide)

/-! ### Claim C10 — `escapeHtml` and the list-view card builders -/

theorem countChar_append (c : Char) (s t : String) :
    countChar c (s ++ t) = countChar c s + countChar c t := by
  simp [countChar, String.data_append, List.count_append]

theorem escapeHtmlChar_count_markup (c d : Char) (hd : d = '<' ∨ d = '>') :
    countChar d (escapeHtmlChar c) = 0 := by
  rw [escapeHtmlChar]
  split_ifs with h1 h2 h3 h4
  · rcases hd with rfl | rfl <;> decide
  · rcases hd with rfl | rfl <;> decide
  · rcases hd with rfl | rfl <;> decide
  · rcases hd with rfl | rfl <;> decide
  · rcases hd with rfl | rfl
    · simp [countChar, String.singleton, List.count_cons, h2]
    · simp [countChar, String.singleton, List.count_cons, h3]

theorem escapeHtmlList_count_markup (d : Char) (hd : d = '<' ∨ d = '>') :
    ∀ l : List Char, countChar d (escapeHtmlList l) = 0 := by
  intro l
  induction l with
  | nil => rcases hd with rfl | rfl <;> decide
  | cons c cs ih =>
    rw [escapeHtmlList, countChar_append, escapeHtmlChar_count_markup c d hd, ih]

theorem countChar_lt_escapeHtml (s : String) : countChar '<' (escapeHtml s) = 0 :=
  escapeHtmlList_count_markup '<' (Or.inl rfl) s.data

theorem countChar_gt_escapeHtml (s : String) : countChar '>' (escapeHtml s) = 0 :=
  escapeHtmlList_count_markup '>' (Or.inr rfl) s.data

/-- C10: `escapeHtml` output never contains a raw `<` or `>`; the
number of `<` and `>` characters in a card header is independent of the
category and status texts (they reach the header only through
`escapeHtml`), and a card description block contains exactly the two `<`
and two `>` of its fixed `div` markup, whatever the description text. -/
theorem escapeHtml_neutralizes_cards :
    (∀ s : String, countChar '<' (escapeHtml s) = 0 ∧ countChar '>' (escapeHtml s) = 0) ∧
    (∀ entry : Entry,
      countChar '<' (createEntryHeader entry) =
        countChar '<' (createEntryHeader { entry with category := "", status := "" }) ∧
      countChar '>' (createEntryHeader entry) =
        countChar '>' (createEntryHeader { entry with category := "", status := "" })) ∧
    (∀ d : String,
      countChar '<' (createEntryDescription d) = 2 ∧
      countChar '>' (createEntryDescription d) = 2) := by
  refine ⟨fun s => ⟨countChar_lt_escapeHtml s, countChar_gt_escapeHtml s⟩, ?_, ?_⟩
  · intro entry
    constructor <;>
      simp [createEntryHeader, countChar_append, countChar_lt_escapeHtml,
        countChar_gt_escapeHtml]
  · intro d
    constructor
    · rw [createEntryDescription, countChar_append, countChar_append,
        countChar_lt_escapeHtml]
      decide
    · rw [createEntryDescription, countChar_append, countChar_append,
        countChar_gt_escapeHtml]
      decide

/-! ### Claim C5 — (non-)escaping in `createShareText` -/

theorem mem_dropWhile_of_not {c : Char} {p : Char → Bool} (hc : p c = false) :
    ∀ {l : List Char}, c ∈ l → c ∈ l.dropWhile p := by
  intro l hl
  induction l with
  | nil => cases hl
  | cons x xs ih =>
    rw [List.dropWhile_cons]
    by_cases hx : p x = true
    · rw [if_pos hx]
      rcases List.mem_cons.1 hl with rfl | h2
      · rw [hc] at hx
        cases hx
      · exact ih h2
    · rw [if_neg hx]
      exact hl

theorem mem_jsTrim {c : Char} (hc : c.isWhitespace = false) {s : String}
    (h : c ∈ s.data) : c ∈ (jsTrim s).data := by
  rw [jsTrim, jsTrimList]
  show c ∈ ((s.data.dropWhile Char.isWhitespace).reverse.dropWhile
    Char.isWhitespace).reverse
  exact List.mem_reverse.2
    (mem_dropWhile_of_not hc (List.mem_reverse.2 (mem_dropWhile_of_not hc h)))

def scriptEntry : Entry :=
  { id := 9, category := "Roads", status := "Open"
  , description := "<script>alert(1)</script>", location := none, photos := []
  , timestamp := 0 }

set_option maxRecDepth 8000 in
/-- C5 counterexample: a record whose description carries markup; the
share text embeds the description verbatim — the full output is computed
and still contains the raw markup-significant characters, so no
escaping or neutralization happens in `createShareText` (the `escapeHtml`
helper is not called there). -/
theorem createShareText_unescaped_counterexample :
    '<' ∈ scriptEntry.description.data ∧
    createShareText scriptEntry =
      "━━━━━━━━━━━━━━━━━━━━\n📋 DATA ENTRY REPORT\n━━━━━━━━━━━━━━━━━━━━\n\n📂 Category: Roads\n✅ Status: Open\n\n📝 Description:\n<script>alert(1)</script>\n\n📍 Location: Not captured\n\n📸 Photos: None\n\n⏰ Timestamp: 0\n\n━━━━━━━━━━━━━━━━━━━━\nGenerated by Data Collector App" ∧
    '<' ∈ (createShareText scriptEntry).data := by
  decide

/-- C5 (amended): `createShareText` embeds the free-text fields without
any escaping: every `<` occurring in the description reappears verbatim
in the produced text block. -/
theorem createShareText_raw_description (entry : Entry)
    (h : '<' ∈ entry.description.data) :
    '<' ∈ (createShareText entry).data := by
  have hne : ¬ entry.description = "" := by
    intro he
    rw [he] at h
    exact (List.not_mem_nil '<') h
  rw [createShareText]
  apply mem_jsTrim (by decide)
  simp only [if_neg hne, String.data_append, List.mem_append]
  tauto

/-- Witness for `createShareText_raw_description` at the concrete
markup-bearing record. -/
theorem createShareText_raw_description_witness :
    '<' ∈ (createShareText scriptEntry).data :=
  createShareText_raw_description scriptEntry (by decide)

/-! ### Claim C7 — clamping in `updateStorageInfo` -/

/-- C7 counterexample: with 2 MiB reported used against a 1 MiB quota,
the derived percentage is 200% and is used unclamped in the storage text
and in the color computation (a red channel of 510 and a green channel
of -255); only the progress-bar width is clamped to 100%. -/
theorem updateStorageInfo_unclamped_counterexample :
    updateStorageInfo (some { usage := 2097152, quota := 1048576 }) =
      some
        { storageText := "Using 2.00 MB of 1.00 MB (200%)"
        , progressWidth := "100%"
        , percentageTenths := 2000
        , widthTenths := 1000
        , red := 510
        , green := -255
        , infoBackgroundColor := "rgba(510, -255, 0, 0.3)"
        , progressBackgroundColor := "rgba(510, -255, 0, 0.6)" } ∧
    ¬ ((2000 : Int) ≤ 1000) ∧ ¬ ((510 : Int) ≤ 255) := by
  decide

/-- C7 (amended): the utilization percentage is clamped to [0, 100]
only for the progress-bar width (`Math.min(percentage, 100)`); the
storage text and the color computation use the unclamped value. -/
theorem updateStorageInfo_width_clamped (est : StorageEstimate)
    (view : StorageInfoView) (hq : 0 < est.quota)
    (hv : updateStorageInfo (some est) = some view) :
    view.widthTenths = min view.percentageTenths 1000 ∧
    0 ≤ view.widthTenths ∧ view.widthTenths ≤ 1000 ∧
    view.progressWidth = oneDecimalToString view.widthTenths ++ "%" := by
  rw [updateStorageInfo] at hv
  have hv2 := Option.some.inj hv
  subst hv2
  have h0 : (0 : Int) ≤ jsMathRound ((est.usage : Int) * 1000) (est.quota : Int) :=
    Int.fdiv_nonneg (by positivity) (by positivity)
  exact ⟨rfl, le_min h0 (by norm_num), min_le_right _ _, rfl⟩

def estimateHalf : StorageEstimate := { usage := 2097152, quota := 4194304 }

def viewHalf : StorageInfoView :=
  { storageText := "Using 2.00 MB of 4.00 MB (50%)"
  , progressWidth := "50%"
  , percentageTenths := 500
  , widthTenths := 500
  , red := 128
  , green := 128
  , infoBackgroundColor := "rgba(128, 128, 0, 0.3)"
  , progressBackgroundColor := "rgba(128, 128, 0, 0.6)" }

/-- Witness for `updateStorageInfo_width_clamped` at a concrete
half-full estimate. -/
theorem updateStorageInfo_width_clamped_witness :
    viewHalf.widthTenths = min viewHalf.percentageTenths 1000 ∧
    0 ≤ viewHalf.widthTenths ∧ viewHalf.widthTenths ≤ 1000 ∧
    viewHalf.progressWidth = oneDecimalToString viewHalf.widthTenths ++ "%" :=
  updateStorageInfo_width_clamped estimateHalf viewHalf (by decide) (by decide)

/-! ### Claim C8 — purity of the share-text flow -/

/-- C8: producing the share text for an id is deterministic and
effect-free: the entries cache is returned unchanged, and running the
flow a second time on the resulting state yields the identical text. -/
theorem shareEntryText_pure (entries : List Entry) (id : Nat) :
    (shareEntryText entries id).2 = entries ∧
    (shareEntryText (shareEntryText entries id).2 id).1 =
      (shareEntryText entries id).1 := by
  have h2 : (shareEntryText entries id).2 = entries := by
    rw [shareEntryText]
    cases entries.find? (fun e => e.id == id) <;> rfl
  exact ⟨h2, by rw [h2]⟩

end DFC
